import Mathlib

/-!
A verification development for the ATS backend's search engine
(`app/services/search_engine.py`).  The scoring pipeline of
`SearchEngine.search` and `SearchEngine.semantic_search` is embedded
shallowly:

* Python float arithmetic on scores is modelled by exact rationals; the
  IEEE value NaN (which arises from `0/0` in the unguarded cosine
  computation) is modelled explicitly as `Option.none`, with the IEEE
  rules that NaN propagates through `+`/`*` and that every `<`/`>`
  comparison against NaN is false.
* The external sentence-transformer model and the transcendental float
  operations whose exact values are irrational (the cosine of two
  embedding vectors, float `**`) are abstracted as parameters gathered in
  the `Externals` structure; every theorem below is proved for all values of
  these parameters, so it holds in particular for the real ones.
* Database rows are modelled by the `Resume` structure; JSON-string
  columns are modelled by `JsonF`, which records whether the stored text
  parses (`.ok`) or raises `json.JSONDecodeError` (`.malformed`).
-/

/-- A float value that may be NaN: `none` models IEEE NaN, `some q` a real
value modelled as an exact rational. -/
abbrev F := Option ℚ

/-- Rational addition, spelled through `mkRat` so that the kernel can
evaluate it on literals (the library's `Rat.add` is `@[irreducible]`);
`qAdd_eq` identifies it with `+`. -/
def qAdd (a b : ℚ) : ℚ :=
  mkRat (a.num * b.den + b.num * a.den) (a.den * b.den)

/-- Rational subtraction through `mkRat`; `qSub_eq` identifies it with `-`. -/
def qSub (a b : ℚ) : ℚ :=
  mkRat (a.num * b.den - b.num * a.den) (a.den * b.den)

/-- Rational multiplication through `mkRat`; `qMul_eq` identifies it with `*`. -/
def qMul (a b : ℚ) : ℚ :=
  mkRat (a.num * b.num) (a.den * b.den)

/-- Python `max` on two floats: the second argument wins only when it is
strictly greater; `pyMax_eq` identifies it with `max`. -/
def pyMax (a b : ℚ) : ℚ :=
  if a < b then b else a

/-- Python `min` on two floats; `pyMin_eq` identifies it with `min`. -/
def pyMin (a b : ℚ) : ℚ :=
  if b < a then b else a

theorem qAdd_eq (a b : ℚ) : qAdd a b = a + b :=
  (Rat.add_def' a b).symm

theorem qSub_eq (a b : ℚ) : qSub a b = a - b :=
  (Rat.sub_def' a b).symm

theorem qMul_eq (a b : ℚ) : qMul a b = a * b := by
  rw [Rat.mul_def, Rat.normalize_eq_mkRat, qMul]

theorem pyMax_eq (a b : ℚ) : pyMax a b = max a b := by
  by_cases h : a < b
  · simp [pyMax, h, max_eq_right h.le]
  · simp [pyMax, h, max_eq_left (le_of_not_lt h)]

theorem pyMin_eq (a b : ℚ) : pyMin a b = min a b := by
  by_cases h : b < a
  · simp [pyMin, h, min_eq_right h.le]
  · simp [pyMin, h, min_eq_left (le_of_not_lt h)]

/-- Float addition with a non-NaN right operand: NaN propagates. -/
def fAddQ : F → ℚ → F
  | some x, q => some (qAdd x q)
  | none, _ => none

/-- Float multiplication with a non-NaN right operand: NaN propagates. -/
def fMulQ : F → ℚ → F
  | some x, q => some (qMul x q)
  | none, _ => none

/-- Python `max(0.0, min(x, 1.0))` on a possibly-NaN float.  `min(nan, 1.0)`
returns its first argument (every comparison with NaN is false), and
`max(0.0, nan)` returns its first argument `0.0`, so a NaN input clamps
to `0.0`. -/
def pyClamp01 : F → ℚ
  | none => 0
  | some x => pyMax 0 (pyMin x 1)

/-- Split a character list on whitespace runs, discarding empty pieces;
the accumulator holds the current word reversed. -/
def splitWs (acc : List Char) : List Char → List (List Char)
  | [] => if acc.isEmpty then [] else [acc.reverse]
  | c :: rest =>
      if c.isWhitespace then
        if acc.isEmpty then splitWs [] rest else acc.reverse :: splitWs [] rest
      else splitWs (c :: acc) rest

/-- Python `str.split()` with no separator: split on whitespace runs and
discard empty pieces. -/
def pySplit (s : String) : List String :=
  (splitWs [] s.toList).map String.mk

/-- Python `str.lower()` (ASCII case mapping). -/
def lowerStr (s : String) : String :=
  String.mk (s.toList.map Char.toLower)

/-- Python `" ".join(l)`. -/
def joinSpace : List String → String
  | [] => ""
  | [s] => s
  | s :: rest => s ++ " " ++ joinSpace rest

/-- One step of substring search: does `needle` occur (contiguously) in
`hay`?  Models the Python `in` operator on strings (over char lists). -/
def listOccurs (needle : List Char) : List Char → Bool
  | [] => needle.isEmpty
  | c :: rest => needle.isPrefixOf (c :: rest) || listOccurs needle rest

/-- Python `needle in hay` for strings. -/
def strContains (hay needle : String) : Bool :=
  listOccurs needle.toList hay.toList

/-- Python truthiness of an optional string: `None` and `""` are falsy. -/
def strOptTruthy : Option String → Bool
  | none => false
  | some s => s ≠ ""

/-- Python truthiness of an optional number: `None` and `0` are falsy. -/
def qOptTruthy : Option ℚ → Bool
  | none => false
  | some q => q ≠ 0

/-- A JSON-string database column holding a value of shape `α`:
`.malformed` models text on which `json.loads` raises (or a NULL fed to a
parse that raises `TypeError`), `.ok` the successfully parsed payload. -/
inductive JsonF (α : Type) where
  | malformed
  | ok (val : α)
deriving DecidableEq

/-- `json.loads` wrapped in the bare `except` of `search` (lines 298-305):
a malformed skills column falls back to `[]`. -/
def jsonGetD {α : Type} (j : JsonF α) (d : α) : α :=
  match j with
  | .malformed => d
  | .ok v => v

/-- Whether rendering this column in `generate_answer_with_rag` raises. -/
def jsonBad {α : Type} : JsonF α → Bool
  | .malformed => true
  | .ok _ => false

/-- The `contact` JSON column as consumed by the location code
(lines 269-288): either `json.loads` raises (`.malformed`, giving the
neutral 0.5 affinity) or it yields a dict whose `location` key is the
given string (`""` models both a missing key and an empty value, and a
NULL column, all of which take the no-location 0.3 branch). -/
inductive Contact where
  | malformed
  | parsed (location : String)
deriving DecidableEq

/-- A row of the `resumes` table, as selected by `search`
(lines 238-244).  `embedding = none` models a NULL column (filtered out
by the SQL `WHERE embedding IS NOT NULL`); `some .malformed` models a
non-NULL column that is empty or fails to parse (skipped inside the
loop, lines 263-265 and 359-361). -/
structure Resume where
  id : ℤ
  userId : String
  name : String
  skills : JsonF (List String)
  experience : Option String
  education : Option String
  contact : Contact
  summary : Option String
  embedding : Option (JsonF (List ℚ))
  certifications : JsonF (List String)
  workHistory : JsonF String
deriving DecidableEq

/-- One returned match of `search` (lines 376-387): the row's fields are
echoed verbatim together with the clamped score. -/
structure MatchResult where
  row : Resume
  similarityScore : ℚ
deriving DecidableEq

/-- The shape of one entry of `semantic_search`'s result-assembly loop
(lines 207-216); in practice never produced, because the id-refetch
feeding that loop raises first (see `SearchEngine.semanticSearch`). -/
structure SemResult where
  row : Resume
  similarityScore : ℚ
deriving DecidableEq

/-- The internal exceptions of `search` that reach the outer
`except Exception` handler (line 403): the explicit
`ValueError("user_id is required for search")` (lines 230-231), and the
`TypeError`/`JSONDecodeError` raised while `generate_answer_with_rag`
renders a malformed JSON column of a top match (lines 415-424, outside
that function's own `try`). -/
inductive PyErr where
  | userIdRequired
  | ragTypeError
deriving DecidableEq

/-- The `analysis` string of a search response, by provenance:
`.noResumes` is "No resumes found in your database." (line 255),
`.noMatches` is "No matching resumes found for your search criteria."
(line 392), `.rag s` a successful Groq answer, `.ragFallback` the fixed
"Error generating analysis. Please try again." (line 448), and
`.errorPerforming e` the f-string "Error performing search: ..."
(line 407). -/
inductive Analysis where
  | noResumes
  | noMatches
  | rag (text : String)
  | ragFallback
  | errorPerforming (e : PyErr)
deriving DecidableEq

/-- The dict returned by `search`: the `"matches"` list and the
`"analysis"` string (`matches` is a reserved word here, hence
`matchList`). -/
structure SearchResult where
  matchList : List MatchResult
  analysis : Analysis
deriving DecidableEq

/-- The external collaborators and transcendental float operations, as
parameters: `encode` is `self.model.encode`; `cos` is the float value of
`np.dot(a, b) / (np.linalg.norm(a) * np.linalg.norm(b))` (`none` when the
float computation yields NaN, e.g. on a zero vector); `powf` is float
`**` (used at base 0.4); `groq` is `call_groq` on the RAG prompt built
from the query and matches (`none` models an exception, handled at
line 446).  Every theorem is universally quantified over `Externals`, hence
holds for the actual model and float semantics. -/
structure Externals where
  encode : String → List ℚ
  cos : List ℚ → List ℚ → F
  powf : ℚ → ℚ → ℚ
  groq : String → List MatchResult → Option String

/-- All characters are decimal digits. -/
def allDigits (l : List Char) : Bool :=
  l.all Char.isDigit

/-- Numeric value of a digit string. -/
def natOfDigits (l : List Char) : ℕ :=
  l.foldl (fun a c => 10 * a + (c.toNat - 48)) 0

/-- Python `float` on an unsigned decimal literal: `"12"`, `"12.5"`,
`"12."`, `".5"`.  (Scientific notation, `inf`/`nan` and digit
underscores, which `float` also accepts, are outside the modelled
grammar; the resumes' experience fields use plain decimals.) -/
def parseUnsigned (cs : List Char) : Option ℚ :=
  match cs.splitOn '.' with
  | [ip] => if ip ≠ [] && allDigits ip then some (mkRat (natOfDigits ip) 1) else none
  | [ip, fp] =>
      if (ip ≠ [] || fp ≠ []) && allDigits ip && allDigits fp then
        some (mkRat (natOfDigits ip * 10 ^ fp.length + natOfDigits fp) (10 ^ fp.length))
      else none
  | _ => none

/-- Python `float(token)` on a possibly signed decimal literal; `none`
models `ValueError`. -/
def parsePyFloat (t : String) : Option ℚ :=
  match t.toList with
  | '+' :: r => parseUnsigned r
  | '-' :: r => (parseUnsigned r).map (fun q => -q)
  | cs => parseUnsigned cs

/-- Dot product of two rational vectors; models `np.dot` on equal-length
vectors (trailing elements of a longer vector are ignored here; the
engine's embedder produces fixed-dimension vectors). -/
def dotQ : List ℚ → List ℚ → ℚ
  | a :: as, b :: bs => a * b + dotQ as bs
  | _, _ => 0

/-- The cosine-similarity computation of `search` (lines 293-295) and
`semantic_search` (lines 136-138):
`np.dot(a, b) / (np.linalg.norm(a) * np.linalg.norm(b))` with
`norm v = Real.sqrt (dotQ v v)`.  The source has no zero-norm guard: when
either norm is zero the float division is `0.0 / 0.0`, which IEEE
evaluates to NaN (modelled `none`) without raising. -/
noncomputable def cosineSimilarity (a b : List ℚ) : Option ℝ :=
  if dotQ a a * dotQ b b = 0 then none
  else some ((dotQ a b : ℝ) / (Real.sqrt (dotQ a a) * Real.sqrt (dotQ b b)))

/-- The keyword-match count of `search` (lines 309-321): the number of
lowercase whitespace-delimited query keywords that occur as a substring
of the lowercased education text, of some individual lowercased skill,
or of the lowercased summary.  A malformed skills column was replaced by
`[]` just above (lines 298-305), and NULL education/summary by `""`
(lines 307, 313). -/
def keywordMatches (q : String) (r : Resume) : ℕ :=
  let educ := lowerStr (r.education.getD "")
  let skl := (jsonGetD r.skills []).map lowerStr
  let summ := lowerStr (r.summary.getD "")
  ((pySplit (lowerStr q)).filter (fun k =>
    strContains educ k || skl.any (fun s => strContains s k) || strContains summ k)).length

/-- The keyword gate and bonus of `search` (lines 323-329): a zero match
count overwrites the similarity with exactly `0.0` (discarding the
cosine value, NaN included); a positive count adds `0.1` per match. -/
def kwAdjust (k : ℕ) (sim : F) : F :=
  let s1 := if k = 0 then some 0 else sim
  if 0 < k then fAddQ s1 (qMul (mkRat k 1) (mkRat 1 10)) else s1

/-- The raw location affinity of `search` (lines 269-288): `0.5` when the
contact JSON fails to parse, `0.3` when the parsed contact has no
(non-empty) location, otherwise the cosine of the two location
embeddings (a float that the model allows to be NaN). -/
def locAffRaw (E : Externals) (l : String) (c : Contact) : F :=
  match c with
  | .malformed => some (mkRat 1 2)
  | .parsed s => if s = "" then some (mkRat 3 10) else E.cos (E.encode l) (E.encode s)

/-- The location adjustment of `search` (lines 331-338), applied only for
a truthy location filter: the affinity is first clamped by
`max(0.0, min(aff, 1.0))`; above `0.7` the clamped affinity times 10 is
added, below `0.3` the score is multiplied by `0.7`, otherwise the score
is unchanged. -/
def locAdjust (E : Externals) (locF : Option String) (c : Contact) (sim : F) : F :=
  match locF with
  | none => sim
  | some l =>
      if l = "" then sim
      else
        let a := pyClamp01 (locAffRaw E l c)
        if mkRat 7 10 < a then fAddQ sim (qMul a (mkRat 10 1))
        else if a < mkRat 3 10 then fMulQ sim (mkRat 7 10)
        else sim

/-- The experience adjustment of `search` (lines 340-353), applied only
when both the filter and the experience description are truthy:
`float(experience.split()[0])` is attempted; any exception (empty token
list or unparseable token) multiplies the score by `0.4`; a parsed value
below the requested minimum multiplies it by
`max(0.05, 0.4 ** shortfall)` (the float power is `E.powf`); otherwise
the score is unchanged. -/
def expAdjust (E : Externals) (expF : Option ℚ) (exp : Option String) (sim : F) : F :=
  match expF with
  | none => sim
  | some req =>
      if req = 0 then sim
      else
        match exp with
        | none => sim
        | some e =>
            if e = "" then sim
            else
              match (pySplit e).head? with
              | none => fMulQ sim (mkRat 2 5)
              | some tok =>
                  match parsePyFloat tok with
                  | none => fMulQ sim (mkRat 2 5)
                  | some y =>
                      if y < req then
                        fMulQ sim (pyMax (mkRat 1 20) (E.powf (mkRat 2 5) (qSub req y)))
                      else sim

/-- The per-row similarity of `search` before the threshold
(lines 260-353): `none` when the row is skipped (NULL-ish or malformed
embedding), otherwise the possibly-NaN float score after the keyword,
location and experience steps, with the base cosine `E.cos` evaluated on
the query embedding and the stored vector. -/
def rawScore (E : Externals) (q : String) (locF : Option String) (expF : Option ℚ)
    (r : Resume) : Option F :=
  match r.embedding with
  | none => none
  | some .malformed => none
  | some (.ok v) =>
      let base := E.cos (E.encode q) v
      let s1 := kwAdjust (keywordMatches q r) base
      let s2 := locAdjust E locF r.contact s1
      let s3 := expAdjust E expF r.experience s2
      some s3

/-- The threshold step of `search` (lines 355-357): only rows whose score
is a real number strictly above `0.3` survive (a NaN score fails the
comparison and is dropped). -/
def scoreRow (E : Externals) (q : String) (locF : Option String) (expF : Option ℚ)
    (r : Resume) : Option (ℚ × Resume) :=
  match rawScore E q locF expF r with
  | none => none
  | some none => none
  | some (some s) => if mkRat 3 10 < s then some (s, r) else none

/-- The SQL fetch of `search` (lines 238-248): all rows with a non-NULL
embedding column belonging to the given user. -/
def fetchRows (store : List Resume) (u : String) : List Resume :=
  store.filter (fun r => r.embedding.isSome && r.userId == u)

/-- Insert `x` in front of the first element `y` with `bf x y = true`;
one step of a stable insertion sort with strict comes-before test `bf`. -/
def insertBy {α : Type} (bf : α → α → Bool) (x : α) : List α → List α
  | [] => [x]
  | y :: ys => if bf x y then x :: y :: ys else y :: insertBy bf x ys

/-- Stable insertion sort with strict comes-before test `bf`; models
Python's stable `list.sort`. -/
def sortBy {α : Type} (bf : α → α → Bool) : List α → List α
  | [] => []
  | x :: xs => insertBy bf x (sortBy bf xs)

/-- The comparison performed by `similarities.sort(reverse=True)`
(line 364) on `(similarity, row)` tuples: descending by score and, on
exact score ties, descending by the row tuple, whose first component is
the (unique, primary-key) id.  (Rows sharing both score and id would be
further compared on their remaining columns in Python; with primary-key
ids that comparison is never reached.) -/
def pairBefore (p q : ℚ × Resume) : Bool :=
  decide (q.1 < p.1) || (decide (p.1 = q.1) && decide (q.2.id < p.2.id))

/-- The truncation and clamping of `search` (lines 366-387): top 5 of the
ranked pool, each exposed score clamped by `max(0.0, min(score, 1.0))`. -/
def buildMatches (ranked : List (ℚ × Resume)) : List MatchResult :=
  (ranked.take 5).map (fun p => ⟨p.2, pyMax 0 (pyMin p.1 1)⟩)

/-- `generate_answer_with_rag` (lines 410-448) as seen from `search`:
rendering the context raises (propagating out of the function, whose
`try` only guards the Groq call) when any match's skills, certifications
or work-history JSON column is malformed or NULL; otherwise the Groq
answer is returned, with the fixed fallback string when the Groq call
itself fails. -/
def ragAnswer (E : Externals) (q : String) (ms : List MatchResult) : Except PyErr Analysis :=
  if ms.any (fun m => jsonBad m.row.skills || jsonBad m.row.certifications
      || jsonBad m.row.workHistory) then
    .error .ragTypeError
  else
    match E.groq q ms with
    | some s => .ok (.rag s)
    | none => .ok .ragFallback

/-- The body of `search` after the user-id check, as a function of the
fetched rows (lines 251-401): early return on no rows, per-row scoring
and threshold, ranking, truncation, clamping, early return on no
matches, then the RAG analysis. -/
def rankedMatches (E : Externals) (q : String) (locF : Option String) (expF : Option ℚ)
    (rows : List Resume) : List MatchResult :=
  buildMatches (sortBy pairBefore (rows.filterMap (scoreRow E q locF expF)))

def searchRows (E : Externals) (q : String) (locF : Option String) (expF : Option ℚ)
    (rows : List Resume) : Except PyErr SearchResult :=
  if rows.isEmpty then .ok ⟨[], .noResumes⟩
  else if (rankedMatches E q locF expF rows).isEmpty then .ok ⟨[], .noMatches⟩
  else
    match ragAnswer E q (rankedMatches E q locF expF rows) with
    | .error e => .error e
    | .ok a => .ok ⟨rankedMatches E q locF expF rows, a⟩

/-- The body of the outer `try` of `search` (lines 228-401): a falsy
`user_id` (None or `""`) raises `ValueError` (lines 230-231); otherwise
the rows of that user are fetched and processed. -/
def searchBody (E : Externals) (q : String) (locF : Option String) (expF : Option ℚ)
    (uid : Option String) (store : List Resume) : Except PyErr SearchResult :=
  if strOptTruthy uid = false then .error .userIdRequired
  else searchRows E q locF expF (fetchRows store (uid.getD ""))

/-- `SearchEngine.search` (lines 226-408): the body wrapped in the
catch-all `except Exception` handler, which converts any internal
exception into `{"matches": [], "analysis": "Error performing search:
..."}`. -/
def SearchEngine.search (E : Externals) (q : String) (locF : Option String) (expF : Option ℚ)
    (uid : Option String) (store : List Resume) : SearchResult :=
  match searchBody E q locF expF uid store with
  | .ok r => r
  | .error e => ⟨[], .errorPerforming e⟩

/-- The comparison performed by `sorted(similarities, reverse=True)` in
`semantic_search` (line 183) on `(similarity, resume_id)` tuples:
descending by score, ties descending by id.  (The sort executes, but its
result is discarded when the id-refetch below it raises.) -/
def simIdBefore (p q : ℚ × ℤ) : Bool :=
  decide (q.1 < p.1) || (decide (p.1 = q.1) && decide (q.2 < p.2))

/-- The per-row similarity of `semantic_search` (lines 126-173): rows
with a falsy or malformed embedding are skipped, as are rows whose
skills JSON raises (the raise is caught by the per-row handler at
line 174); the cosine gets `+0.1` when some keyword occurs in the
space-joined lowercased skills text and `+0.1` more when the summary is
truthy and some keyword occurs in it; the result is clamped by
`max(0.0, min(sim, 1.0))` (which maps a NaN cosine to `0.0`) and paired
with the resume id. -/
def semScoreRow (E : Externals) (q : String) (r : Resume) : Option (ℚ × ℤ) :=
  match r.embedding with
  | none => none
  | some .malformed => none
  | some (.ok v) =>
      match r.skills with
      | .malformed => none
      | .ok skillsList =>
          let kws := pySplit (lowerStr q)
          let skillsText := lowerStr (joinSpace skillsList)
          let summText := lowerStr (r.summary.getD "")
          let s0 := E.cos (E.encode q) v
          let s1 := if kws.any (fun k => strContains skillsText k) then fAddQ s0 (mkRat 1 10) else s0
          let s2 :=
            if strOptTruthy r.summary && kws.any (fun k => strContains summText k) then
              fAddQ s1 (mkRat 1 10)
            else s1
          some (pyClamp01 s2, r.id)

/-- `SearchEngine.semantic_search` (lines 105-224).  Its SQL fetch
(lines 113-117) has no user filter: every tenant's rows with a non-NULL
embedding are scanned and scored, and the top-`k` `(score, id)` pairs
are selected (lines 182-185).  The id-refetch that follows
(lines 188-193) then executes a `text()` statement containing literal
`?` placeholders together with a bare list of ids, on a
`mysql+pymysql` engine; SQLAlchemy rejects that parameter form (and the
`?` markers are not bind parameters of `text()`), so the call raises
whenever it is reached, the catch-all `except` at line 222 swallows the
exception, and the function returns `[]`.  Consequently the returned
list is `[]` on every path: no rows, no similarities, or the failing
refetch.  The result-assembly loop of lines 195-219 is dead code and is
not modelled. -/
def SearchEngine.semanticSearch (E : Externals) (q : String) (topK : ℕ)
    (store : List Resume) : List SemResult :=
  let rows := store.filter (fun r => r.embedding.isSome)
  if rows.isEmpty then []
  else
    let sims := rows.filterMap (semScoreRow E q)
    if sims.isEmpty then []
    else
      let _top := (sortBy simIdBefore sims).take topK
      []

theorem semanticSearch_eq_nil (E : Externals) (q : String) (topK : ℕ)
    (store : List Resume) :
    SearchEngine.semanticSearch E q topK store = [] := by
  simp [SearchEngine.semanticSearch]

theorem insertBy_perm {α : Type} (bf : α → α → Bool) (x : α) (l : List α) :
    List.Perm (insertBy bf x l) (x :: l) := by
  induction l with
  | nil => simp [insertBy]
  | cons y ys ih =>
      by_cases h : bf x y
      · simp [insertBy, h]
      · simp only [insertBy, h, if_neg, Bool.false_eq_true, not_false_iff]
        exact (ih.cons y).trans (List.Perm.swap x y ys)

theorem sortBy_perm {α : Type} (bf : α → α → Bool) (l : List α) :
    List.Perm (sortBy bf l) l := by
  induction l with
  | nil => simp [sortBy]
  | cons x xs ih => exact (insertBy_perm bf x (sortBy bf xs)).trans (ih.cons x)

theorem mem_sortBy {α : Type} {bf : α → α → Bool} {l : List α} {a : α} :
    a ∈ sortBy bf l ↔ a ∈ l :=
  (sortBy_perm bf l).mem_iff

theorem mem_insertBy {α : Type} {bf : α → α → Bool} {l : List α} {x a : α} :
    a ∈ insertBy bf x l ↔ a = x ∨ a ∈ l := by
  rw [(insertBy_perm bf x l).mem_iff, List.mem_cons]

theorem insertBy_pairwise {α : Type} {bf : α → α → Bool}
    (hasym : ∀ a b, bf a b = true → bf b a = false)
    (htrans : ∀ a b c, bf a b = true → bf c b = false → bf c a = false)
    {x : α} {l : List α} (h : l.Pairwise (fun a b => bf b a = false)) :
    (insertBy bf x l).Pairwise (fun a b => bf b a = false) := by
  induction l with
  | nil => simp [insertBy]
  | cons y ys ih =>
      rcases List.pairwise_cons.1 h with ⟨hy, hys⟩
      by_cases hxy : bf x y
      · simp only [insertBy, hxy, if_pos]
        refine List.pairwise_cons.2 ⟨?_, h⟩
        intro b hb
        rcases List.mem_cons.1 hb with hb | hb
        · rw [hb]; exact hasym x y hxy
        · exact htrans x y b hxy (hy b hb)
      · simp only [insertBy, hxy, Bool.false_eq_true, if_neg, not_false_iff]
        refine List.pairwise_cons.2 ⟨?_, ih hys⟩
        intro b hb
        rcases mem_insertBy.1 hb with hb | hb
        · rw [hb]; simpa using hxy
        · exact hy b hb

theorem sortBy_pairwise {α : Type} {bf : α → α → Bool}
    (hasym : ∀ a b, bf a b = true → bf b a = false)
    (htrans : ∀ a b c, bf a b = true → bf c b = false → bf c a = false)
    (l : List α) :
    (sortBy bf l).Pairwise (fun a b => bf b a = false) := by
  induction l with
  | nil => simp [sortBy]
  | cons x xs ih => exact insertBy_pairwise hasym htrans ih

theorem pairBefore_iff (p q : ℚ × Resume) :
    pairBefore p q = true ↔ q.1 < p.1 ∨ (p.1 = q.1 ∧ q.2.id < p.2.id) := by
  simp [pairBefore]

theorem pairBefore_asymm (p q : ℚ × Resume) (h : pairBefore p q = true) :
    pairBefore q p = false := by
  rw [← Bool.not_eq_true]
  rw [pairBefore_iff] at h ⊢
  intro ht
  rcases h with h | ⟨h1, h2⟩ <;> rcases ht with ht | ⟨ht1, ht2⟩ <;> linarith

theorem pairBefore_trans (c p q : ℚ × Resume) (h1 : pairBefore c p = true)
    (h2 : pairBefore p q = true) : pairBefore c q = true := by
  rw [pairBefore_iff] at h1 h2 ⊢
  rcases h1 with h1 | ⟨h1a, h1b⟩ <;> rcases h2 with h2 | ⟨h2a, h2b⟩
  · exact Or.inl (lt_trans h2 h1)
  · exact Or.inl (h2a ▸ h1)
  · exact Or.inl (h1a ▸ h2)
  · exact Or.inr ⟨h1a.trans h2a, lt_trans h2b h1b⟩

theorem pairBefore_transNeg (p q c : ℚ × Resume) (h1 : pairBefore p q = true)
    (h2 : pairBefore c q = false) : pairBefore c p = false := by
  rw [← Bool.not_eq_true]
  intro hc
  rw [pairBefore_trans c p q hc h1] at h2
  exact absurd h2 (by simp)

theorem pairBefore_false_dest (p q : ℚ × Resume) (h : pairBefore q p = false) :
    q.1 < p.1 ∨ (q.1 = p.1 ∧ q.2.id ≤ p.2.id) := by
  rcases lt_trichotomy q.1 p.1 with hlt | heq | hgt
  · exact Or.inl hlt
  · refine Or.inr ⟨heq, ?_⟩
    by_contra hid
    have hb : pairBefore q p = true := by
      rw [pairBefore_iff]
      exact Or.inr ⟨heq, lt_of_not_le hid⟩
    rw [hb] at h
    exact absurd h (by simp)
  · have hb : pairBefore q p = true := by
      rw [pairBefore_iff]
      exact Or.inl hgt
    rw [hb] at h
    exact absurd h (by simp)

theorem rankedPool_pairwise (l : List (ℚ × Resume)) :
    (sortBy pairBefore l).Pairwise (fun a b => pairBefore b a = false) :=
  sortBy_pairwise pairBefore_asymm (fun a b c ha hc => pairBefore_transNeg a b c ha hc) l

theorem scoreRow_shape (E : Externals) (q : String) (locF : Option String)
    (expF : Option ℚ) (r : Resume) (p : ℚ × Resume)
    (h : scoreRow E q locF expF r = some p) :
    p.2 = r ∧ rawScore E q locF expF r = some (some p.1) ∧ mkRat 3 10 < p.1 := by
  rcases hr : rawScore E q locF expF r with _ | f
  · simp [scoreRow, hr] at h
  · rcases f with _ | s
    · simp [scoreRow, hr] at h
    · simp only [scoreRow, hr] at h
      by_cases ht : mkRat 3 10 < s
      · rw [if_pos ht] at h
        obtain rfl : (s, r) = p := Option.some.inj h
        exact ⟨rfl, rfl, ht⟩
      · rw [if_neg ht] at h
        exact absurd h (by simp)

theorem searchBody_ok_matchList (E : Externals) (q : String) (locF : Option String)
    (expF : Option ℚ) (uid : Option String) (store : List Resume) (r : SearchResult)
    (h : searchBody E q locF expF uid store = .ok r) :
    r.matchList = [] ∨
      r.matchList = rankedMatches E q locF expF (fetchRows store (uid.getD "")) := by
  unfold searchBody searchRows at h
  split at h
  · exact absurd h (by simp)
  · split at h
    · obtain rfl := Except.ok.inj h
      exact Or.inl rfl
    · split at h
      · obtain rfl := Except.ok.inj h
        exact Or.inl rfl
      · split at h
        · exact absurd h (by simp)
        · obtain rfl := Except.ok.inj h
          exact Or.inr rfl

theorem search_matchList_cases (E : Externals) (q : String) (locF : Option String)
    (expF : Option ℚ) (uid : Option String) (store : List Resume) :
    (SearchEngine.search E q locF expF uid store).matchList = [] ∨
      (SearchEngine.search E q locF expF uid store).matchList =
        rankedMatches E q locF expF (fetchRows store (uid.getD "")) := by
  unfold SearchEngine.search
  rcases hb : searchBody E q locF expF uid store with e | r
  · exact Or.inl rfl
  · exact searchBody_ok_matchList E q locF expF uid store r hb

theorem mem_search_matchList (E : Externals) (q : String) (locF : Option String)
    (expF : Option ℚ) (uid : Option String) (store : List Resume) (m : MatchResult)
    (hm : m ∈ (SearchEngine.search E q locF expF uid store).matchList) :
    ∃ s, scoreRow E q locF expF m.row = some (s, m.row) ∧
      m.similarityScore = pyMax 0 (pyMin s 1) ∧ mkRat 3 10 < s := by
  rcases search_matchList_cases E q locF expF uid store with hc | hc
  · rw [hc] at hm
    exact absurd hm (List.not_mem_nil m)
  · rw [hc] at hm
    unfold rankedMatches buildMatches at hm
    rcases List.mem_map.1 hm with ⟨p, hp, rfl⟩
    have hpool : p ∈ (fetchRows store (uid.getD "")).filterMap (scoreRow E q locF expF) :=
      mem_sortBy.1 (List.mem_of_mem_take hp)
    rcases List.mem_filterMap.1 hpool with ⟨r, _, hsr⟩
    rcases scoreRow_shape E q locF expF r p hsr with ⟨hp2, _, hth⟩
    refine ⟨p.1, ?_, rfl, hth⟩
    show scoreRow E q locF expF p.2 = some (p.1, p.2)
    rw [← hp2] at hsr
    rw [hsr, Prod.mk.eta]

/-- C3: for every search invocation (any externals, query, filters, user
and store), the returned matches list has length at most 5, is sorted by
the exposed similarity score in descending order, and every exposed
similarity score lies in the closed interval [0, 1]. -/
theorem C3_result_sequence_invariants (E : Externals) (q : String) (locF : Option String)
    (expF : Option ℚ) (uid : Option String) (store : List Resume) :
    (SearchEngine.search E q locF expF uid store).matchList.length ≤ 5 ∧
    (SearchEngine.search E q locF expF uid store).matchList.Pairwise
      (fun a b => b.similarityScore ≤ a.similarityScore) ∧
    ∀ m ∈ (SearchEngine.search E q locF expF uid store).matchList,
      0 ≤ m.similarityScore ∧ m.similarityScore ≤ 1 := by
  rcases search_matchList_cases E q locF expF uid store with hc | hc
  · rw [hc]
    exact ⟨by simp, by simp, by simp⟩
  · rw [hc]
    unfold rankedMatches buildMatches
    refine ⟨?_, ?_, ?_⟩
    · rw [List.length_map]
      exact List.length_take_le 5 _
    · have hp := rankedPool_pairwise
        ((fetchRows store (uid.getD "")).filterMap (scoreRow E q locF expF))
      refine List.Pairwise.map _ ?_ (List.Pairwise.sublist (List.take_sublist 5 _) hp)
      intro a b hab
      have hble : b.1 ≤ a.1 := by
        rcases pairBefore_false_dest a b hab with h | ⟨h1, _⟩
        · exact le_of_lt h
        · exact le_of_eq h1
      show pyMax 0 (pyMin b.1 1) ≤ pyMax 0 (pyMin a.1 1)
      rw [pyMax_eq, pyMax_eq, pyMin_eq, pyMin_eq]
      exact max_le_max le_rfl (min_le_min hble le_rfl)
    · intro m hm
      rcases List.mem_map.1 hm with ⟨p, _, rfl⟩
      constructor
      · show 0 ≤ pyMax 0 (pyMin p.1 1)
        rw [pyMax_eq]
        exact le_max_left 0 _
      · show pyMax 0 (pyMin p.1 1) ≤ 1
        rw [pyMax_eq, pyMin_eq]
        exact max_le (by norm_num) (min_le_right _ _)

theorem mkRat_eq (n : ℤ) (d : ℕ) : mkRat n d = (n : ℚ) / (d : ℚ) := by
  rw [Rat.mkRat_eq_divInt, Rat.divInt_eq_div]
  norm_num

theorem fAddQ_some (x q : ℚ) : fAddQ (some x) q = some (x + q) := by
  simp [fAddQ, qAdd_eq]

theorem fMulQ_some (x q : ℚ) : fMulQ (some x) q = some (x * q) := by
  simp [fMulQ, qMul_eq]

theorem fMulQ_zero (c : ℚ) : fMulQ (some 0) c = some 0 := by
  rw [fMulQ_some, zero_mul]

theorem kwAdjust_zero (sim : F) : kwAdjust 0 sim = some 0 := by
  simp [kwAdjust]

theorem kwAdjust_pos (k : ℕ) (hk : 0 < k) (b : ℚ) :
    kwAdjust k (some b) = some (b + k / 10) := by
  unfold kwAdjust
  rw [if_neg (Nat.pos_iff_ne_zero.1 hk), if_pos hk, fAddQ_some, qMul_eq, Rat.mkRat_one,
    mkRat_eq]
  push_cast
  ring_nf

theorem locAdjust_none (E : Externals) (c : Contact) (sim : F) :
    locAdjust E none c sim = sim := rfl

theorem expAdjust_none (E : Externals) (exp : Option String) (sim : F) :
    expAdjust E none exp sim = sim := rfl

theorem expAdjust_zero (E : Externals) (expF : Option ℚ) (exp : Option String) :
    expAdjust E expF exp (some 0) = some 0 := by
  unfold expAdjust
  repeat' split
  all_goals first | rfl | exact fMulQ_zero _

theorem locAdjust_zero (E : Externals) (locF : Option String) (c : Contact)
    (hloc : ∀ l, locF = some l → l ≠ "" → pyClamp01 (locAffRaw E l c) ≤ mkRat 7 10) :
    locAdjust E locF c (some 0) = some 0 := by
  simp only [locAdjust]
  split
  · rfl
  · rename_i l
    split
    · rfl
    · rename_i hne
      split
      · rename_i ha
        exact absurd ha (not_lt_of_le (hloc l rfl hne))
      · split
        · exact fMulQ_zero _
        · rfl

/-- A baseline concrete resume used in the witnesses and counterexamples:
tenant `"u1"`, one skill `"python"`, a valid stored embedding, no
experience, education, summary or location. -/
def resumeA : Resume :=
  { id := 1, userId := "u1", name := "Ann", skills := .ok ["python"],
    experience := none, education := none, contact := .parsed "",
    summary := none, embedding := some (.ok [1]), certifications := .ok [],
    workHistory := .ok "wh" }

/-- `resumeA` with id 2: a score tie with `resumeA` under any query. -/
def resumeB : Resume := { resumeA with id := 2 }

/-- `resumeA` with location `"berlin"` in its contact JSON. -/
def resumeLoc : Resume := { resumeA with contact := .parsed "berlin" }

/-- A resume whose only keyword-bearing field is its education text. -/
def resumeEdu : Resume := { resumeA with skills := .ok [], education := some "phd in cs" }

/-- `resumeA` with the experience description `"3 years"`. -/
def resumeExp3 : Resume := { resumeA with experience := some "3 years" }

/-- `resumeA` with an empty (non-NULL) experience description. -/
def resumeExpEmpty : Resume := { resumeA with experience := some "" }

/-- A resume belonging to the other tenant `"u2"`. -/
def resumeU2 : Resume := { resumeA with id := 3, userId := "u2" }

/-- Concrete externals: every cosine evaluates to 0.5, float power to
4/25 (the value of `0.4 ** 2`), and the Groq call returns `"ok"`. -/
def extHalf : Externals :=
  { encode := fun _ => [1], cos := fun _ _ => some (mkRat 1 2),
    powf := fun _ _ => mkRat 4 25, groq := fun _ _ => some "ok" }

/-- Concrete externals: every cosine evaluates to 0.9. -/
def extNine : Externals :=
  { encode := fun _ => [1], cos := fun _ _ => some (mkRat 9 10),
    powf := fun _ _ => mkRat 4 25, groq := fun _ _ => some "ok" }

theorem fetchRows_eq_filter (store : List Resume) (u : String) :
    fetchRows store u =
      (store.filter (fun r => r.userId == u)).filter (fun r => r.embedding.isSome) := by
  rw [fetchRows, List.filter_filter]

/-- C1: tenant isolation.  For `search`, the entire result is a
function of the tenant's own rows: any two stores agreeing on the rows
of user `u` produce identical search output for `u`, for every query,
filter, and externals.  For `semantic_search` the returned matches are
likewise unchanged by other tenants' records — degenerately so: its
id-refetch (lines 188-193) raises whenever it is reached and the
catch-all at line 222 turns every run into `[]`, so the returned list
is empty for every store.  (Its scoring loop does scan all tenants'
rows, but none of that ever reaches the returned output.) -/
theorem C1_tenant_isolation (E : Externals) (q : String) (locF : Option String)
    (expF : Option ℚ) (topK : ℕ) (u : String) (s1 s2 : List Resume)
    (h : s1.filter (fun r => r.userId == u) = s2.filter (fun r => r.userId == u)) :
    SearchEngine.search E q locF expF (some u) s1 =
      SearchEngine.search E q locF expF (some u) s2 ∧
    SearchEngine.semanticSearch E q topK s1 =
      SearchEngine.semanticSearch E q topK s2 := by
  constructor
  · have hf : fetchRows s1 u = fetchRows s2 u := by
      rw [fetchRows_eq_filter, fetchRows_eq_filter, h]
    unfold SearchEngine.search searchBody
    simp only [Option.getD_some]
    rw [hf]
  · rw [semanticSearch_eq_nil, semanticSearch_eq_nil]

theorem C1_tenant_isolation_witness :
    List.filter (fun r => r.userId == "u1") [resumeA, resumeU2]
        = List.filter (fun r => r.userId == "u1") [resumeA] ∧
    SearchEngine.search extHalf "python" none none (some "u1") [resumeA, resumeU2]
        = SearchEngine.search extHalf "python" none none (some "u1") [resumeA] ∧
    SearchEngine.semanticSearch extHalf "python" 5 [resumeA, resumeU2]
        = SearchEngine.semanticSearch extHalf "python" 5 [resumeA] :=
  ⟨by decide,
   (C1_tenant_isolation extHalf "python" none none 5 "u1" _ _ (by decide)).1,
   (C1_tenant_isolation extHalf "python" none none 5 "u1" _ _ (by decide)).2⟩

theorem rawScore_zero_of_gate (E : Externals) (q : String) (locF : Option String)
    (expF : Option ℚ) (r : Resume) (v : List ℚ)
    (hv : r.embedding = some (.ok v))
    (hk : keywordMatches q r = 0)
    (hloc : ∀ l, locF = some l → l ≠ "" → pyClamp01 (locAffRaw E l r.contact) ≤ mkRat 7 10) :
    rawScore E q locF expF r = some (some 0) := by
  simp only [rawScore, hv]
  rw [hk, kwAdjust_zero, locAdjust_zero E locF r.contact hloc, expAdjust_zero]

theorem scoreRow_none_of_gate (E : Externals) (q : String) (locF : Option String)
    (expF : Option ℚ) (r : Resume)
    (hk : keywordMatches q r = 0)
    (hloc : ∀ l, locF = some l → l ≠ "" → pyClamp01 (locAffRaw E l r.contact) ≤ mkRat 7 10) :
    scoreRow E q locF expF r = none := by
  rcases hemb : r.embedding with _ | j
  · have hr : rawScore E q locF expF r = none := by simp only [rawScore, hemb]
    simp only [scoreRow, hr]
  · rcases j with _ | v
    · have hr : rawScore E q locF expF r = none := by simp only [rawScore, hemb]
      simp only [scoreRow, hr]
    · have hr := rawScore_zero_of_gate E q locF expF r v hemb hk hloc
      simp only [scoreRow, hr]
      rw [if_neg]
      rw [mkRat_eq]
      norm_num

/-- C2 (amended): the keyword hard gate.  For a candidate with zero
keyword matches, the score is overwritten with exactly 0.0 regardless of
the cosine value, and — provided the query has no truthy location filter
or the candidate's clamped location affinity is at most 0.7 — the score
stays 0.0 through the remaining steps, fails the `> 0.3` threshold, and
the candidate is excluded from the returned matches.  (Without that
proviso the claim fails: the location boost is added after the gate and
can resurrect the candidate; see `C2_location_boost_overrides_gate`.) -/
theorem C2_keyword_gate (E : Externals) (q : String) (locF : Option String)
    (expF : Option ℚ) (uid : Option String) (store : List Resume) (r : Resume)
    (hk : keywordMatches q r = 0)
    (hloc : ∀ l, locF = some l → l ≠ "" → pyClamp01 (locAffRaw E l r.contact) ≤ mkRat 7 10) :
    (∀ v, r.embedding = some (.ok v) → rawScore E q locF expF r = some (some 0)) ∧
    scoreRow E q locF expF r = none ∧
    ∀ m ∈ (SearchEngine.search E q locF expF uid store).matchList, m.row ≠ r := by
  refine ⟨fun v hv => rawScore_zero_of_gate E q locF expF r v hv hk hloc,
    scoreRow_none_of_gate E q locF expF r hk hloc, ?_⟩
  intro m hm heq
  rcases mem_search_matchList E q locF expF uid store m hm with ⟨s, hs, _, _⟩
  rw [heq, scoreRow_none_of_gate E q locF expF r hk hloc] at hs
  exact Option.noConfusion hs

theorem C2_keyword_gate_witness :
    keywordMatches "rust" resumeA = 0 ∧
    scoreRow extNine "rust" none none resumeA = none ∧
    (SearchEngine.search extNine "rust" none none (some "u1") [resumeA]).matchList = [] :=
  ⟨by decide,
   (C2_keyword_gate extNine "rust" none none (some "u1") [resumeA] resumeA (by decide)
      (fun _ hl => Option.noConfusion hl)).2.1,
   by decide⟩

/-- C2 counterexample: the gate does not force exclusion when a location
filter is present.  The query `"rust"` has zero keyword overlap with the
candidate (so the claim requires score exactly 0.0 and exclusion), and
the base cosine is 0.9 (nonzero), yet the candidate is returned with
similarity score 1.0: the gate sets the score to 0.0, after which the
location boost adds 0.9 * 10 = 9.0, which passes the threshold and is
clamped to 1.0. -/
theorem C2_location_boost_overrides_gate :
    keywordMatches "rust" resumeLoc = 0 ∧
    SearchEngine.search extNine "rust" (some "berlin") none (some "u1") [resumeLoc]
        = ⟨[⟨resumeLoc, 1⟩], .rag "ok"⟩ :=
  ⟨by decide, by decide⟩

/-- C4 (amended): the cosine computation of `search` and
`semantic_search` has no zero-norm guard: when either vector has zero
norm, the float division is `0.0 / 0.0` and yields NaN (modelled
`none`) rather than 0.0 — non-fatal, but not the claimed defined zero;
when both norms are nonzero it yields a defined real value (no error,
no NaN). -/
theorem C4_cosine_nan_on_zero_norm (a b : List ℚ) :
    (dotQ a a = 0 ∨ dotQ b b = 0 → cosineSimilarity a b = none) ∧
    (dotQ a a ≠ 0 → dotQ b b ≠ 0 → ∃ x : ℝ, cosineSimilarity a b = some x) := by
  constructor
  · intro h
    have hc : dotQ a a * dotQ b b = 0 := by
      rcases h with h | h
      · rw [h, zero_mul]
      · rw [h, mul_zero]
    unfold cosineSimilarity
    rw [if_pos hc]
  · intro h1 h2
    unfold cosineSimilarity
    rw [if_neg (mul_ne_zero h1 h2)]
    exact ⟨_, rfl⟩

theorem C4_cosine_nan_witness :
    dotQ [(0 : ℚ), 0] [(0 : ℚ), 0] = 0 ∧
    cosineSimilarity [(0 : ℚ), 0] [(2 : ℚ), 3] = none :=
  ⟨by norm_num [dotQ],
   (C4_cosine_nan_on_zero_norm [(0 : ℚ), 0] [(2 : ℚ), 3]).1 (Or.inl (by norm_num [dotQ]))⟩

/-- C4 counterexample: at the zero vector `[0]` against `[1]`, the claim
asserts the computation returns exactly 0.0; instead the unguarded
division `0.0 / (0.0 * 1.0)` yields NaN (`none`), not `some 0`. -/
theorem C4_zero_norm_not_zero :
    cosineSimilarity [(0 : ℚ)] [(1 : ℚ)] = none ∧
    cosineSimilarity [(0 : ℚ)] [(1 : ℚ)] ≠ some (0 : ℝ) := by
  have hc : dotQ [(0 : ℚ)] [(0 : ℚ)] * dotQ [(1 : ℚ)] [(1 : ℚ)] = 0 := by
    norm_num [dotQ]
  have h : cosineSimilarity [(0 : ℚ)] [(1 : ℚ)] = none := by
    unfold cosineSimilarity
    rw [if_pos hc]
  refine ⟨h, ?_⟩
  rw [h]
  exact fun hcon => Option.noConfusion hcon

/-- Modelled from the claim under test (which follows spec §4.2 step 2):
the keyword count as the specification words it, counting keywords that
occur as substrings of the joined skills text or of the summary only
(and of no other field).  Declared solely to compare the specified
count against the source's `keywordMatches`. -/
def keywordMatchesClaimed (q : String) (r : Resume) : ℕ :=
  let skl := lowerStr (joinSpace (jsonGetD r.skills []))
  let summ := lowerStr (r.summary.getD "")
  ((pySplit (lowerStr q)).filter (fun k => strContains skl k || strContains summ k)).length

/-- C5 counterexample: the source also counts keyword occurrences in the
education field.  For the query `"phd"` and a candidate whose only
occurrence of `"phd"` is its education text, the claimed count is 0 (the
claim's gate would then force score 0.0 and exclusion), but the code
counts 1 match, adds the 0.1 bonus to the 0.5 cosine, and returns the
candidate with score 0.6. -/
theorem C5_education_field_counted :
    keywordMatchesClaimed "phd" resumeEdu = 0 ∧
    keywordMatches "phd" resumeEdu = 1 ∧
    (SearchEngine.search extHalf "phd" none none (some "u1") [resumeEdu]).matchList.map
      (fun m => m.similarityScore) = [mkRat 3 5] :=
  ⟨by decide, by decide, by decide⟩

/-- C5 (amended): the keyword match count equals the number of lowercase
whitespace-delimited query keywords occurring as a substring of the
lowercased education text, of some individual lowercased skill, or of
the lowercased summary (`keywordMatches`); whenever that count `k` is
positive and no location or experience filter applies, the candidate's
raw score is exactly the base cosine plus `0.1 * k`. -/
theorem C5_keyword_bonus (E : Externals) (q : String) (r : Resume) (v : List ℚ)
    (b : ℚ) (k : ℕ)
    (hemb : r.embedding = some (.ok v))
    (hcos : E.cos (E.encode q) v = some b)
    (hk : keywordMatches q r = k) (hkpos : 0 < k) :
    rawScore E q none none r = some (some (b + k / 10)) := by
  simp only [rawScore, hemb, hcos, locAdjust_none, expAdjust_none]
  rw [hk, kwAdjust_pos k hkpos b]

theorem C5_keyword_bonus_witness :
    resumeA.embedding = some (.ok [1]) ∧
    extHalf.cos (extHalf.encode "python") [1] = some (mkRat 1 2) ∧
    keywordMatches "python" resumeA = 1 ∧
    rawScore extHalf "python" none none resumeA = some (some (mkRat 1 2 + (1 : ℕ) / 10)) :=
  ⟨rfl, rfl, by decide,
   C5_keyword_bonus extHalf "python" resumeA [1] (mkRat 1 2) 1 rfl rfl (by decide) (by decide)⟩

/-- C6 (amended): the experience gate of `search`.  With an experience
filter `req ≠ 0`, no location filter, `k > 0` keyword matches and base
cosine `b`, the raw score is exactly `(b + k/10) * M`, where the
multiplier `M` follows the code's branches: `1` when the experience
description is NULL or empty (the gate is skipped entirely — the point
where the original claim fails), `0.4` when there is no first token or
it fails to parse as a float, `max(0.05, 0.4 ** (req - y))` when the
parsed years `y` fall short of `req`, and `1` when `y ≥ req`. -/
theorem C6_experience_gate (E : Externals) (q : String) (r : Resume) (v : List ℚ)
    (b : ℚ) (k : ℕ) (req : ℚ) (M : ℚ)
    (hemb : r.embedding = some (.ok v))
    (hcos : E.cos (E.encode q) v = some b)
    (hk : keywordMatches q r = k) (hkpos : 0 < k) (hreq : req ≠ 0)
    (hM : M = (match r.experience with
      | none => 1
      | some e =>
          if e = "" then 1
          else
            match (pySplit e).head? with
            | none => 2 / 5
            | some tok =>
                match parsePyFloat tok with
                | none => 2 / 5
                | some y =>
                    if y < req then max (1 / 20) (E.powf (2 / 5) (req - y)) else 1)) :
    rawScore E q none (some req) r = some (some ((b + k / 10) * M)) := by
  subst hM
  simp only [rawScore, hemb, hcos, locAdjust_none]
  rw [hk, kwAdjust_pos k hkpos b]
  simp only [expAdjust]
  rw [if_neg hreq]
  have hq : (mkRat 2 5 : ℚ) = 2 / 5 := by rw [mkRat_eq]; norm_num
  rcases hexp : r.experience with _ | e <;> simp only [hexp]
  · rw [mul_one]
  · by_cases he : e = ""
    · simp only [if_pos he, mul_one]
    · simp only [if_neg he]
      rcases hh : (pySplit e).head? with _ | tok <;> simp only [hh]
      · rw [fMulQ_some, hq]
      · rcases hp : parsePyFloat tok with _ | y <;> simp only [hp]
        · rw [fMulQ_some, hq]
        · by_cases hy : y < req
          · simp only [if_pos hy]
            rw [fMulQ_some, pyMax_eq, qSub_eq, hq]
            rw [show (mkRat 1 20 : ℚ) = 1 / 20 from by rw [mkRat_eq]; norm_num]
          · simp only [if_neg hy, mul_one]

theorem C6_experience_gate_witness :
    keywordMatches "python" resumeExp3 = 1 ∧
    parsePyFloat "3" = some (mkRat 3 1) ∧
    rawScore extHalf "python" none (some 5) resumeExp3
        = some (some ((mkRat 1 2 + (1 : ℕ) / 10) * (4 / 25))) := by
  refine ⟨by decide, by decide, ?_⟩
  have hM : (4 / 25 : ℚ) = (match resumeExp3.experience with
      | none => 1
      | some e =>
          if e = "" then 1
          else
            match (pySplit e).head? with
            | none => 2 / 5
            | some tok =>
                match parsePyFloat tok with
                | none => 2 / 5
                | some y =>
                    if y < (5 : ℚ) then max (1 / 20) (extHalf.powf (2 / 5) (5 - y)) else 1) := by
    have hred : (match resumeExp3.experience with
      | none => (1 : ℚ)
      | some e =>
          if e = "" then 1
          else
            match (pySplit e).head? with
            | none => 2 / 5
            | some tok =>
                match parsePyFloat tok with
                | none => 2 / 5
                | some y =>
                    if y < (5 : ℚ) then max (1 / 20) (extHalf.powf (2 / 5) (5 - y)) else 1)
        = max (1 / 20 : ℚ) (extHalf.powf (2 / 5) (5 - mkRat 3 1)) := rfl
    rw [hred]
    have hpw : extHalf.powf (2 / 5) (5 - mkRat 3 1) = mkRat 4 25 := rfl
    rw [hpw, mkRat_eq]
    norm_num
  exact C6_experience_gate extHalf "python" resumeExp3 [1] (mkRat 1 2) 1 5 (4 / 25)
    rfl rfl (by decide) (by decide) (by norm_num) hM

/-- C6 counterexample: with requested minimum 5 and an empty (non-NULL)
experience description — on which the claimed parse fails, so the claim
demands the score be multiplied by 0.4 (0.6 * 0.4 = 0.24, below the
threshold, hence exclusion) — the code skips the gate entirely because
`if experience_years and experience:` is falsy for the empty string: the
candidate is returned with the unpenalized score 0.6. -/
theorem C6_empty_experience_escapes_gate :
    (SearchEngine.search extHalf "python" none (some 5) (some "u1") [resumeExpEmpty]).matchList
        = [⟨resumeExpEmpty, mkRat 3 5⟩] ∧
    ¬ mkRat 3 5 = qMul (mkRat 2 5) (mkRat 3 5) :=
  ⟨by decide, by decide⟩

/-- C7 (amended): the ranked pool is a permutation of the scored pairs,
sorted by score descending with exact score ties broken by candidate id
DESCENDING — not ascending as claimed.  (`sort(reverse=True)` on
`(similarity, row)` tuples compares the row tuples, whose first entry is
the id, in the same reversed direction.)  Note the order is exact on the
internal scores; the exposed scores are clamped afterwards, so two
matches may display equal clamped scores in either id order. -/
theorem C7_rank_order (l : List (ℚ × Resume)) :
    List.Perm (sortBy pairBefore l) l ∧
    (sortBy pairBefore l).Pairwise
      (fun p q => q.1 < p.1 ∨ (q.1 = p.1 ∧ q.2.id ≤ p.2.id)) :=
  ⟨sortBy_perm pairBefore l,
   (rankedPool_pairwise l).imp (fun h => pairBefore_false_dest _ _ h)⟩

/-- C7 counterexample: two candidates identical except for ids 1 and 2
tie at score 0.6; the returned order is id 2 before id 1 — descending,
not the claimed ascending. -/
theorem C7_tie_break_descending :
    (SearchEngine.search extHalf "python" none none (some "u1")
        [resumeA, resumeB]).matchList.map (fun m => m.row.id) = [2, 1] ∧
    ([(2 : ℤ), 1] : List ℤ) ≠ [1, 2] :=
  ⟨by decide, by decide⟩

/-- C8 (amended): `search` performs no empty-query validation and never
raises `InvalidQuery`; it proceeds to fetch and score.  An empty query
has no keywords, so every candidate is keyword-gated to score 0.0, and
with no location filter the matches list is always empty (the location
boost is the only way a gated candidate can resurface; see the
counterexample). -/
theorem C8_empty_query_no_matches (E : Externals) (expF : Option ℚ)
    (uid : Option String) (store : List Resume) :
    (SearchEngine.search E "" none expF uid store).matchList = [] := by
  rcases search_matchList_cases E "" none expF uid store with hc | hc
  · exact hc
  · rw [hc]
    unfold rankedMatches
    have hpool : (fetchRows store (uid.getD "")).filterMap (scoreRow E "" none expF) = [] := by
      rw [List.filterMap_eq_nil_iff]
      intro r _
      exact scoreRow_none_of_gate E "" none expF r rfl (fun _ hl => Option.noConfusion hl)
    rw [hpool]
    rfl

/-- C8 counterexample: far from failing with `InvalidQuery`, a search
with an empty query text proceeds and can even return a match: with a
location filter and location affinity 0.9, the keyword-gated score 0.0
is boosted to 9.0 and clamped to 1.0. -/
theorem C8_empty_query_returns_match :
    SearchEngine.search extNine "" (some "berlin") none (some "u1") [resumeLoc]
        = ⟨[⟨resumeLoc, 1⟩], .rag "ok"⟩ := by
  decide

/-- C9: `search` is total over failures.  A falsy user id (None or `""`)
is converted by the catch-all handler into the record
`{matches: [], analysis: "Error performing search: ..."}`; every
internal exception reaching the handler produces a record of that shape
with an empty matches list; and a Narrator (Groq) failure never changes
the matches list — it degrades only the analysis text. -/
theorem C9_search_total (E : Externals) (q : String) (locF : Option String)
    (expF : Option ℚ) (uid : Option String) (store : List Resume) :
    (strOptTruthy uid = false →
      SearchEngine.search E q locF expF uid store = ⟨[], .errorPerforming .userIdRequired⟩) ∧
    (∀ e, searchBody E q locF expF uid store = .error e →
      SearchEngine.search E q locF expF uid store = ⟨[], .errorPerforming e⟩) ∧
    (∀ g, (SearchEngine.search { E with groq := g } q locF expF uid store).matchList =
      (SearchEngine.search E q locF expF uid store).matchList) := by
  refine ⟨?_, ?_, ?_⟩
  · intro hu
    unfold SearchEngine.search searchBody
    rw [if_pos hu]
  · intro e he
    unfold SearchEngine.search
    rw [he]
  · intro g
    unfold SearchEngine.search searchBody searchRows
    by_cases hu : strOptTruthy uid = false
    · rw [if_pos hu, if_pos hu]
    · rw [if_neg hu, if_neg hu]
      have hsr : rankedMatches { E with groq := g } q locF expF
          (fetchRows store (uid.getD "")) =
          rankedMatches E q locF expF (fetchRows store (uid.getD "")) := rfl
      rw [hsr]
      by_cases hre : (fetchRows store (uid.getD "")).isEmpty
      · rw [if_pos hre, if_pos hre]
      · rw [if_neg hre, if_neg hre]
        by_cases hme : (rankedMatches E q locF expF (fetchRows store (uid.getD ""))).isEmpty
        · rw [if_pos hme, if_pos hme]
        · rw [if_neg hme, if_neg hme]
          unfold ragAnswer
          by_cases hbad : (rankedMatches E q locF expF (fetchRows store (uid.getD ""))).any
              (fun m => jsonBad m.row.skills || jsonBad m.row.certifications
                || jsonBad m.row.workHistory)
          · rw [if_pos hbad, if_pos hbad]
          · rw [if_neg hbad, if_neg hbad]
            have hgg : ({ E with groq := g } : Externals).groq = g := rfl
            rw [hgg]
            rcases g q (rankedMatches E q locF expF (fetchRows store (uid.getD ""))) with _ | s1 <;>
              rcases E.groq q (rankedMatches E q locF expF (fetchRows store (uid.getD ""))) with _ | s2 <;>
              rfl

theorem C9_search_total_witness :
    strOptTruthy (none : Option String) = false ∧
    SearchEngine.search extHalf "python" none none none [resumeA]
        = ⟨[], .errorPerforming .userIdRequired⟩ :=
  ⟨by decide, (C9_search_total extHalf "python" none none none [resumeA]).1 (by decide)⟩

theorem pyClamp01_le_one (f : F) : pyClamp01 f ≤ 1 := by
  rcases f with _ | x
  · norm_num [pyClamp01]
  · show pyMax 0 (pyMin x 1) ≤ 1
    rw [pyMax_eq, pyMin_eq]
    exact max_le (by norm_num) (min_le_right _ _)

/-- C10: location-boost saturation.  For a search with a truthy location
filter and no (truthy) experience filter, any candidate with at least
one keyword match, a real base cosine `b ≥ -1`, and clamped location
affinity above 0.7 passes the threshold with internal score
`b + 0.1*k + 10*affinity ≥ 1`; consequently, whenever it appears among
the returned matches (it may be cut by the top-5 truncation), its
exposed similarity score is exactly 1.0. -/
theorem C10_location_boost_saturation (E : Externals) (q : String) (l : String)
    (expF : Option ℚ) (uid : Option String) (store : List Resume) (r : Resume)
    (v : List ℚ) (b : ℚ)
    (hl : l ≠ "")
    (hexp : qOptTruthy expF = false)
    (hemb : r.embedding = some (.ok v))
    (hcos : E.cos (E.encode q) v = some b)
    (hb : -1 ≤ b)
    (hk : 0 < keywordMatches q r)
    (haff : mkRat 7 10 < pyClamp01 (locAffRaw E l r.contact)) :
    (∃ s, scoreRow E q (some l) expF r = some (s, r) ∧ 1 ≤ s) ∧
    ∀ m ∈ (SearchEngine.search E q (some l) expF uid store).matchList,
      m.row = r → m.similarityScore = 1 := by
  have hk1 : (1 : ℚ) ≤ (keywordMatches q r : ℚ) := by
    exact_mod_cast hk
  have haff' : (7 : ℚ) / 10 < pyClamp01 (locAffRaw E l r.contact) := by
    rw [mkRat_eq] at haff
    convert haff using 2
  have hraw : rawScore E q (some l) expF r =
      some (some (b + (keywordMatches q r : ℚ) / 10
        + pyClamp01 (locAffRaw E l r.contact) * 10)) := by
    simp only [rawScore, hemb, hcos]
    rw [kwAdjust_pos (keywordMatches q r) hk b]
    simp only [locAdjust]
    rw [if_neg hl, if_pos haff, fAddQ_some, qMul_eq, Rat.mkRat_one]
    have hexp0 : expAdjust E expF r.experience
        (some (b + (keywordMatches q r : ℚ) / 10
          + pyClamp01 (locAffRaw E l r.contact) * ((10 : ℤ) : ℚ))) =
        some (b + (keywordMatches q r : ℚ) / 10
          + pyClamp01 (locAffRaw E l r.contact) * ((10 : ℤ) : ℚ)) := by
      rcases expF with _ | req
      · exact expAdjust_none E r.experience _
      · have hreq0 : req = 0 := by
          by_contra hne
          rw [show qOptTruthy (some req) = decide (req ≠ 0) from rfl] at hexp
          simp [hne] at hexp
        simp only [expAdjust]
        rw [if_pos hreq0]
    rw [hexp0]
    norm_num
  have hs1 : 1 ≤ b + (keywordMatches q r : ℚ) / 10
      + pyClamp01 (locAffRaw E l r.contact) * 10 := by
    nlinarith [haff', hk1, hb]
  have hthr : mkRat 3 10 < b + (keywordMatches q r : ℚ) / 10
      + pyClamp01 (locAffRaw E l r.contact) * 10 := by
    rw [mkRat_eq]
    norm_num
    linarith
  have hsr : scoreRow E q (some l) expF r =
      some (b + (keywordMatches q r : ℚ) / 10
        + pyClamp01 (locAffRaw E l r.contact) * 10, r) := by
    simp only [scoreRow, hraw]
    rw [if_pos hthr]
  refine ⟨⟨_, hsr, hs1⟩, ?_⟩
  intro m hm hrow
  rcases mem_search_matchList E q (some l) expF uid store m hm with ⟨s', hs', hscore, _⟩
  rw [hrow] at hs'
  rw [hs'] at hsr
  have hpair := Option.some.inj hsr
  have hs'eq : b + (keywordMatches q r : ℚ) / 10
      + pyClamp01 (locAffRaw E l r.contact) * 10 = s' := (Prod.mk.injEq _ _ _ _ ▸ hpair).1.symm
  rw [hscore, ← hs'eq, pyMax_eq, pyMin_eq, min_eq_right hs1]
  exact max_eq_right (by norm_num)

theorem C10_location_boost_saturation_witness :
    0 < keywordMatches "python" resumeLoc ∧
    mkRat 7 10 < pyClamp01 (locAffRaw extNine "berlin" resumeLoc.contact) ∧
    (∃ s, scoreRow extNine "python" (some "berlin") none resumeLoc = some (s, resumeLoc) ∧ 1 ≤ s) ∧
    (SearchEngine.search extNine "python" (some "berlin") none (some "u1") [resumeLoc]).matchList
        = [⟨resumeLoc, 1⟩] :=
  ⟨by decide, by decide,
   (C10_location_boost_saturation extNine "python" "berlin" none (some "u1") [resumeLoc]
      resumeLoc [1] (mkRat 9 10) (by decide) (by decide) rfl rfl
      (by rw [mkRat_eq]; norm_num) (by decide) (by decide)).1,
   by decide⟩
